import Mathlib

/-!
Verification development for the content-creator assistant application
(`src/app.py`). The application is a single Streamlit script; its
retrieval-and-generation workflow is embedded here as pure functions:

* the two persisted example collections (chromadb collections) become a
  `Collection` of entries, with `add`, `get`-style listing, `deleteId` and
  a similarity `query` parameterised by an abstract distance metric
  (the embedding service is an external black box);
* the click handlers ("Save My Style Example", "Save Creator Content",
  "Improve My Script") become functions from their widget inputs and the
  current stores/session state to the updated state and emitted messages;
* the module-level widget layout of the script, including the API-key
  check, is embedded as `renderApp`, a function from the environment to
  the list of widgets the script renders.

Python truthiness of strings and lists (empty is falsy) is modelled
explicitly where the source relies on it.
-/

namespace App

/-- Truthiness of `os.getenv` results as used in `if not openai_key or not
claude_key` (app.py line 32): `None` and the empty string are falsy. -/
def truthy : Option String → Bool
  | none => false
  | some s => !(s == "")

/-- Widgets the top-level script can render, in source order. Only the
widgets relevant to the workflow claims are distinguished. -/
inductive Widget where
  | appTitle
  | welcomeText
  | missingKeysError
  | modelSelectbox
  | modelInfo
  | scriptEditorHeader
  | scriptTextArea
  | inspirationRadio
  | focusSelectbox
  | improveButton
  | enhancedScriptDisplay
  | memoryBankTabs
  | saveStyleForm
  | saveStyleButton
  | saveCreatorForm
  | saveCreatorButton
  deriving DecidableEq

/-- Top-level rendering of `app.py` for one script run. The key check on
line 32 gates only the block of lines 34-94 (model selectbox, model info,
database init, `make_ai_call`); the script editor section (lines 96-151),
the result display (lines 214-224) and the memory banks (lines 226-353)
are at module level, outside the `else` branch, and render regardless.
`hasScript` models the truthiness of the `user_script` text area and
`hasResult` the presence of `enhanced_script` in the session state. -/
def renderApp (openai_key claude_key : Option String)
    (hasScript hasResult : Bool) : List Widget :=
  [Widget.appTitle, Widget.welcomeText] ++
  (if !truthy openai_key || !truthy claude_key then [Widget.missingKeysError]
   else [Widget.modelSelectbox, Widget.modelInfo]) ++
  [Widget.scriptEditorHeader, Widget.scriptTextArea] ++
  (if hasScript then [Widget.inspirationRadio, Widget.focusSelectbox] else []) ++
  [Widget.improveButton] ++
  (if hasResult then [Widget.enhancedScriptDisplay] else []) ++
  [Widget.memoryBankTabs, Widget.saveStyleForm, Widget.saveStyleButton,
   Widget.saveCreatorForm, Widget.saveCreatorButton]

/-- Metadata of a personal-style example (app.py lines 255-259). -/
structure StyleMeta where
  title : String
  notes : String
  timestamp : String
  deriving DecidableEq

/-- Metadata of a favorite-creator example (app.py lines 311-316). -/
structure CreatorMeta where
  creator_name : String
  content_title : String
  notes : String
  timestamp : String
  deriving DecidableEq

/-- One stored record of a chromadb collection: id, document, metadata. -/
structure Entry (α : Type) where
  id : String
  document : String
  metadata : α
  deriving DecidableEq

/-- Modelled from the spec: a chromadb persistent collection (the Example
Store of spec section 4.1; the chromadb implementation is not part of the
repository). Entries are kept in insertion order. -/
structure Collection (α : Type) where
  entries : List (Entry α)
  deriving DecidableEq

/-- Empty collection (a fresh store). -/
def Collection.emptyC {α : Type} : Collection α := ⟨[]⟩

/-- Identifier list as returned by `collection.get()` (its `ids` field). -/
def Collection.ids {α : Type} (c : Collection α) : List String :=
  c.entries.map Entry.id

/-- Number of stored entries. -/
def Collection.size {α : Type} (c : Collection α) : Nat :=
  c.entries.length

/-- Modelled from the spec: `collection.add(documents=[d], metadatas=[m],
ids=[i])` appends one record to the persisted collection (spec section 4.1:
the collection grows by one entry, visible to subsequent list/query
calls). -/
def Collection.add {α : Type} (c : Collection α) (document : String)
    (metadata : α) (id : String) : Collection α :=
  ⟨c.entries ++ [⟨id, document, metadata⟩]⟩

/-- Modelled from the spec: `collection.delete(ids=[id])` removes the
entries with the given id; a no-op when the id is absent. -/
def Collection.deleteId {α : Type} (c : Collection α) (id : String) :
    Collection α :=
  ⟨c.entries.filter (fun e => !(e.id == id))⟩

/-- Retrieval by id, as `collection.get(ids=[id])`: all stored entries
carrying the id. -/
def Collection.getById {α : Type} (c : Collection α) (id : String) :
    List (Entry α) :=
  c.entries.filter (fun e => e.id == id)

/-- Modelled from the spec: `collection.query(query_texts=[probe],
n_results=k, where=w)` of the black-box similarity service (spec
sections 2 and 4.1): up to `k` entries nearest to the probe among those
passing the metadata filter, never an error on an empty or non-matching
collection. The embedding distance is abstracted as `sim`: a smaller
`sim probe document` means nearer. -/
def Collection.query {α : Type} (c : Collection α)
    (sim : String → String → Nat) (probe : String) (k : Nat)
    (φ : α → Bool) : List (Entry α) :=
  ((c.entries.filter (fun e => φ e.metadata)).mergeSort
    (fun a b => sim probe a.document ≤ sim probe b.document)).take k

/-- Python string slicing `s[:n]`: the first `n` characters. -/
def pyTake (n : Nat) (s : String) : String :=
  String.mk (s.data.take n)

/-- Handler of the "Save My Style Example" button (app.py lines 251-262):
guarded by truthiness of both required fields, the example is appended
with id `my_style_<size+1>`; otherwise nothing happens. Returns the
updated collection and the success message, if any. -/
def saveMyStyleExample (c : Collection StyleMeta)
    (example_title example_script example_notes now : String) :
    Collection StyleMeta × Option String :=
  if example_title ≠ "" ∧ example_script ≠ "" then
    (c.add example_script ⟨example_title, example_notes, now⟩
      ("my_style_" ++ toString (c.ids.length + 1)),
     some ("Saved: " ++ example_title))
  else (c, none)

/-- Handler of the "Save Creator Content" button (app.py lines 307-319):
guarded by truthiness of the three required fields, the example is
appended with id `creator_<size+1>`; otherwise nothing happens. -/
def saveCreatorContent (c : Collection CreatorMeta)
    (creator_name content_title creator_content content_notes now : String) :
    Collection CreatorMeta × Option String :=
  if creator_name ≠ "" ∧ content_title ≠ "" ∧ creator_content ≠ "" then
    (c.add creator_content ⟨creator_name, content_title, content_notes, now⟩
      ("creator_" ++ toString (c.ids.length + 1)),
     some ("Saved content from " ++ creator_name ++ ": " ++ content_title))
  else (c, none)

/-- Inspiration-source radio options (app.py lines 111-114). -/
inductive InspirationSource where
  | myPersonalStyleOnly
  | favoriteCreatorsOnly
  | bothStyleAndCreators
  deriving DecidableEq

/-- Membership test of line 157: inspiration source is in
["My personal style only", "Both my style and favorite creators"]. -/
def InspirationSource.includesSelf : InspirationSource → Bool
  | .favoriteCreatorsOnly => false
  | _ => true

/-- Membership test of line 167: inspiration source is in
["Favorite creators only", "Both my style and favorite creators"]. -/
def InspirationSource.includesCreators : InspirationSource → Bool
  | .myPersonalStyleOnly => false
  | _ => true

/-- Construction of the metadata filter (app.py lines 168-170):
`where_filter` stays `None` unless `creator_selection` is truthy, that is
a present, non-empty list. -/
def whereFilter (creator_selection : Option (List String)) :
    Option (List String) :=
  match creator_selection with
  | some sel => if sel ≠ [] then some sel else none
  | none => none

/-- Modelled from the spec: the chromadb filter semantics for the only
filter shape the application builds, an is-one-of constraint over
`creator_name` (spec glossary, metadata filter). `none` means no
restriction. -/
def matchesWhere (w : Option (List String)) (m : CreatorMeta) : Bool :=
  match w with
  | none => true
  | some sel => sel.contains m.creator_name

/-- Query of the personal collection (app.py lines 158-161): probe is the
first 500 characters of the script, requesting 2 results, no filter. -/
def styleQueryResults (sim : String → String → Nat)
    (my_style : Collection StyleMeta) (user_script : String) :
    List (Entry StyleMeta) :=
  my_style.query sim (pyTake 500 user_script) 2 (fun _ => true)

/-- Query of the creators collection (app.py lines 172-176): the same
500-character probe, requesting 3 results, restricted by `whereFilter`. -/
def creatorQueryResults (sim : String → String → Nat)
    (creators : Collection CreatorMeta) (user_script : String)
    (creator_selection : Option (List String)) : List (Entry CreatorMeta) :=
  creators.query sim (pyTake 500 user_script) 3
    (matchesWhere (whereFilter creator_selection))

/-- Style context block for the i-th retrieved example (app.py line 165),
1-based: label with the title, then the document truncated to 400
characters, then the ellipsis marker. -/
def styleBlock (i : Nat) (e : Entry StyleMeta) : String :=
  "Your Style Example " ++ toString i ++ " - \x27" ++ e.metadata.title ++
    "\x27:\n" ++ pyTake 400 e.document ++ "..."

/-- Creator context block for the i-th retrieved example (app.py
line 180), 1-based. -/
def creatorBlock (i : Nat) (e : Entry CreatorMeta) : String :=
  "Creator Example " ++ toString i ++ " - " ++ e.metadata.creator_name ++
    ": \x27" ++ e.metadata.content_title ++ "\x27:\n" ++
    pyTake 400 e.document ++ "..."

/-- The `context_parts` list built by the improve handler (app.py
lines 155-180): a self section when the mode includes the personal style
and the style query returned anything, then a creators section when the
mode includes creators and the creators query returned anything. -/
def contextParts (sim : String → String → Nat) (mode : InspirationSource)
    (creator_selection : Option (List String)) (user_script : String)
    (my_style : Collection StyleMeta) (creators : Collection CreatorMeta) :
    List String :=
  (if mode.includesSelf then
    let res := styleQueryResults sim my_style user_script
    if res ≠ [] then
      "Your personal writing style examples:" ::
        res.enum.map (fun p => styleBlock (p.1 + 1) p.2)
    else []
  else []) ++
  (if mode.includesCreators then
    let res := creatorQueryResults sim creators user_script creator_selection
    if res ≠ [] then
      "\nSuccessful creator examples for inspiration:" ::
        res.enum.map (fun p => creatorBlock (p.1 + 1) p.2)
    else []
  else [])

/-- The assembled context (app.py line 182): the parts joined by blank
lines, or the sentinel when no part was produced. -/
def buildContext (sim : String → String → Nat) (mode : InspirationSource)
    (creator_selection : Option (List String)) (user_script : String)
    (my_style : Collection StyleMeta) (creators : Collection CreatorMeta) :
    String :=
  let parts := contextParts sim mode creator_selection user_script
    my_style creators
  if parts ≠ [] then String.intercalate "\n\n" parts
  else "No relevant examples found."

/-- Literal segment of the enhancement prompt before the original
script. -/
def promptPart1 : String :=
  "You are an expert script editor specializing in content creation and storytelling.\n\n                ORIGINAL SCRIPT TO IMPROVE:\n                \""

/-- Literal segment between the original script and the focus area. -/
def promptPart2 : String :=
  "\"\n\n                FOCUS AREA: "

/-- Literal segment between the focus area and the context. -/
def promptPart3 : String :=
  "\n\n                INSPIRATION SOURCES:\n                "

/-- Literal segment between the context and the lowercased focus. -/
def promptPart4 : String :=
  "\n\n                Your task:\n                1. Rewrite and improve the original script, focusing specifically on "

/-- Literal closing segment of the enhancement prompt. -/
def promptPart5 : String :=
  "\n                2. Draw inspiration from the provided examples while maintaining the user\x27s authentic voice\n                3. Enhance storytelling elements, structure, and engagement\n                4. Keep the core message but elevate the execution\n\n                Provide the improved script.\n\n                Make it compelling, authentic, and ready to use."

/-- The enhancement prompt f-string (app.py lines 184-202): the fixed
template with the original script, the focus area, the context block and
the lowercased focus interpolated. -/
def enhancementPrompt (user_script improvement_focus context : String) :
    String :=
  promptPart1 ++ user_script ++ promptPart2 ++ improvement_focus ++
    promptPart3 ++ context ++ promptPart4 ++ improvement_focus.toLower ++
    promptPart5

/-- Messages the improve handler can emit. -/
inductive UiMessage where
  | success (s : String)
  | errorMsg (s : String)
  deriving DecidableEq

/-- The per-session result slot `st.session_state.enhanced_script`. -/
structure SessionState where
  enhanced_script : Option String
  deriving DecidableEq

/-- Handler of the "Improve My Script" button (app.py lines 151-212):
inside the try block the context is built, the prompt assembled and the
backend called; on success the session result slot is overwritten and a
success message shown; a raised backend failure (an `Except.error`) is
caught by the except clause, shown as an error message, and the session
state is left as it was. `backend` abstracts `make_ai_call`, the call
into the external generation SDKs. -/
def improveMyScript (backend : String → Except String String)
    (sim : String → String → Nat) (mode : InspirationSource)
    (creator_selection : Option (List String))
    (user_script improvement_focus : String)
    (my_style : Collection StyleMeta) (creators : Collection CreatorMeta)
    (sess : SessionState) : SessionState × UiMessage :=
  let context := buildContext sim mode creator_selection user_script
    my_style creators
  let prompt := enhancementPrompt user_script improvement_focus context
  match backend prompt with
  | Except.ok improved =>
      (⟨some improved⟩, UiMessage.success "Script improved successfully!")
  | Except.error e =>
      (sess, UiMessage.errorMsg ("Error improving script: " ++ e))

/-- Characters drop out of a Python slice only when the string is longer
than the slice bound. -/
theorem pyTake_of_length_le (n : Nat) (s : String) (h : s.length ≤ n) :
    pyTake n s = s := by
  cases s with
  | mk data =>
    simp only [pyTake]
    rw [List.take_of_length_le h]

/-- C1: the claim that missing credentials block every workflow widget
fails on the code. With OPENAI_API_KEY absent and ANTHROPIC_API_KEY set,
the run renders the missing-credentials error, yet the script editor text
area, the Improve button and both memory-bank save forms are still
rendered: they sit at module level outside the else branch of the key
check. -/
theorem C1_workflow_widgets_rendered_despite_missing_key :
    Widget.missingKeysError ∈ renderApp none (some "sk-key") true false ∧
    Widget.scriptTextArea ∈ renderApp none (some "sk-key") true false ∧
    Widget.improveButton ∈ renderApp none (some "sk-key") true false ∧
    Widget.saveStyleButton ∈ renderApp none (some "sk-key") true false ∧
    Widget.saveCreatorButton ∈ renderApp none (some "sk-key") true false := by
  decide

/-- C2: a failure raised from the generation backend during the
Improve-My-Script action is caught at the call site, converted into the
user-visible error message, and the session result slot is returned
unmodified; the handler is a total function, so no error escapes the
action boundary. -/
theorem C2_backend_failure_caught (backend : String → Except String String)
    (sim : String → String → Nat) (mode : InspirationSource)
    (creator_selection : Option (List String))
    (user_script improvement_focus : String)
    (my_style : Collection StyleMeta) (creators : Collection CreatorMeta)
    (sess : SessionState) (e : String)
    (h : backend (enhancementPrompt user_script improvement_focus
      (buildContext sim mode creator_selection user_script my_style
        creators)) = Except.error e) :
    improveMyScript backend sim mode creator_selection user_script
      improvement_focus my_style creators sess =
      (sess, UiMessage.errorMsg ("Error improving script: " ++ e)) := by
  simp only [improveMyScript, h]

/-- Witness for C2 at a concrete failing backend: the stored result slot
survives unchanged and the error message is emitted. -/
theorem C2_backend_failure_caught_witness :
    improveMyScript (fun _ => Except.error "boom") (fun _ _ => 0)
      InspirationSource.myPersonalStyleOnly none "draft"
      "Clarity and structure" Collection.emptyC Collection.emptyC
      ⟨some "old result"⟩ =
      (⟨some "old result"⟩,
        UiMessage.errorMsg ("Error improving script: " ++ "boom")) :=
  C2_backend_failure_caught _ _ _ _ _ _ _ _ _ _ rfl

/-- C3: a save with all required fields non-empty grows the target
collection by exactly one, assigns id my_style_(size+1) resp.
creator_(size+1) where size is the collection size at creation time, and
the new entry is retrievable by that id immediately after, for both
collections. -/
theorem C3_valid_save_adds_retrievable_entry
    (c : Collection StyleMeta) (d : Collection CreatorMeta)
    (title text notes now cname ctitle ctext cnotes cnow : String)
    (ht : title ≠ "") (hx : text ≠ "")
    (hc : cname ≠ "") (hct : ctitle ≠ "") (hcx : ctext ≠ "") :
    ((saveMyStyleExample c title text notes now).1.size = c.size + 1 ∧
      Entry.mk ("my_style_" ++ toString (c.size + 1)) text
          ⟨title, notes, now⟩ ∈
        (saveMyStyleExample c title text notes now).1.getById
          ("my_style_" ++ toString (c.size + 1))) ∧
    ((saveCreatorContent d cname ctitle ctext cnotes cnow).1.size =
        d.size + 1 ∧
      Entry.mk ("creator_" ++ toString (d.size + 1)) ctext
          ⟨cname, ctitle, cnotes, cnow⟩ ∈
        (saveCreatorContent d cname ctitle ctext cnotes cnow).1.getById
          ("creator_" ++ toString (d.size + 1))) := by
  refine ⟨⟨?_, ?_⟩, ?_, ?_⟩ <;>
    simp [saveMyStyleExample, saveCreatorContent, Collection.add,
      Collection.size, Collection.ids, Collection.getById, ht, hx, hc, hct,
      hcx, List.filter_append, List.mem_filter]

/-- Witness for C3 at concrete saves into empty collections. -/
theorem C3_valid_save_adds_retrievable_entry_witness :
    (((saveMyStyleExample Collection.emptyC "Intro Hook" "Hey" "" "t").1.size =
        (Collection.emptyC : Collection StyleMeta).size + 1 ∧
      Entry.mk ("my_style_" ++
          toString ((Collection.emptyC : Collection StyleMeta).size + 1))
          "Hey" ⟨"Intro Hook", "", "t"⟩ ∈
        (saveMyStyleExample Collection.emptyC "Intro Hook" "Hey" "" "t").1.getById
          ("my_style_" ++
            toString ((Collection.emptyC : Collection StyleMeta).size + 1))) ∧
    ((saveCreatorContent Collection.emptyC "Ali" "Video" "Text" "" "t").1.size =
        (Collection.emptyC : Collection CreatorMeta).size + 1 ∧
      Entry.mk ("creator_" ++
          toString ((Collection.emptyC : Collection CreatorMeta).size + 1))
          "Text" ⟨"Ali", "Video", "", "t"⟩ ∈
        (saveCreatorContent Collection.emptyC "Ali" "Video" "Text" "" "t").1.getById
          ("creator_" ++
            toString ((Collection.emptyC : Collection CreatorMeta).size + 1)))) :=
  C3_valid_save_adds_retrievable_entry Collection.emptyC Collection.emptyC
    "Intro Hook" "Hey" "" "t" "Ali" "Video" "Text" "" "t"
    (by decide) (by decide) (by decide) (by decide) (by decide)

/-- Style store after three valid saves, which are assigned the ids
my_style_1, my_style_2 and my_style_3 in that order. -/
def threeSavesStore : Collection StyleMeta :=
  (saveMyStyleExample (saveMyStyleExample (saveMyStyleExample
    Collection.emptyC "t1" "s1" "" "ts").1 "t2" "s2" "" "ts").1
    "t3" "s3" "" "ts").1

/-- The same store after the user deletes the second entry. -/
def afterDeleteStore : Collection StyleMeta :=
  threeSavesStore.deleteId "my_style_2"

/-- C4: ids are unique at creation time but not after deletions. After
three valid style saves (assigned my_style_1, my_style_2 and my_style_3),
deleting my_style_2 and saving again assigns the new entry the id
my_style_3, which equals the id of the surviving third entry; afterwards
two stored entries carry that id. -/
theorem C4_duplicate_id_after_deletion :
    threeSavesStore.ids = ["my_style_1", "my_style_2", "my_style_3"] ∧
    "my_style_" ++ toString (afterDeleteStore.ids.length + 1) =
      "my_style_3" ∧
    Entry.mk "my_style_3" "s3" ⟨"t3", "", "ts"⟩ ∈
      afterDeleteStore.entries ∧
    Entry.mk "my_style_3" "s4" ⟨"t4", "", "ts"⟩ ∈
      (saveMyStyleExample afterDeleteStore "t4" "s4" "" "ts").1.entries ∧
    ((saveMyStyleExample afterDeleteStore "t4" "s4" "" "ts").1.getById
      "my_style_3").length = 2 := by
  decide

/-- C5: a save attempt with a required field empty is a silent no-op: no
message is emitted, nothing is persisted and the collection size is
unchanged, for both collections. -/
theorem C5_invalid_save_is_noop
    (c : Collection StyleMeta) (d : Collection CreatorMeta)
    (title text notes now cname ctitle ctext cnotes cnow : String)
    (h : title = "" ∨ text = "")
    (h2 : cname = "" ∨ ctitle = "" ∨ ctext = "") :
    saveMyStyleExample c title text notes now = (c, none) ∧
    (saveMyStyleExample c title text notes now).1.size = c.size ∧
    saveCreatorContent d cname ctitle ctext cnotes cnow = (d, none) ∧
    (saveCreatorContent d cname ctitle ctext cnotes cnow).1.size = d.size := by
  have hfalse : ¬(title ≠ "" ∧ text ≠ "") := by tauto
  have hfalse2 : ¬(cname ≠ "" ∧ ctitle ≠ "" ∧ ctext ≠ "") := by tauto
  simp [saveMyStyleExample, saveCreatorContent, hfalse, hfalse2]

/-- Witness for C5 at concrete invalid saves: a style save with empty
text and a creator save with empty creator name change nothing. -/
theorem C5_invalid_save_is_noop_witness :
    saveMyStyleExample Collection.emptyC "Intro Hook" "" "" "t" =
      ((Collection.emptyC : Collection StyleMeta), none) ∧
    (saveMyStyleExample Collection.emptyC "Intro Hook" "" "" "t").1.size =
      (Collection.emptyC : Collection StyleMeta).size ∧
    saveCreatorContent Collection.emptyC "" "Video" "Text" "" "t" =
      ((Collection.emptyC : Collection CreatorMeta), none) ∧
    (saveCreatorContent Collection.emptyC "" "Video" "Text" "" "t").1.size =
      (Collection.emptyC : Collection CreatorMeta).size :=
  C5_invalid_save_is_noop Collection.emptyC Collection.emptyC
    "Intro Hook" "" "" "t" "" "Video" "Text" "" "t"
    (Or.inr rfl) (Or.inl rfl)

/-- Demo personal-style store holding the single Intro Hook example of
the end-to-end scenario. -/
def introHookStore : Collection StyleMeta :=
  (saveMyStyleExample Collection.emptyC "Intro Hook"
    "Hey everyone, welcome back..." "" "ts").1

/-- C6: when the mode includes the personal style, the style query is the
personal collection queried with exactly the first 500 characters of the
script as similarity probe, requesting 2 results; every returned result
contributes its labeled block (title, then the text truncated to 400
characters with the ellipsis marker) to the context parts; and the
original draft appears verbatim in the assembled prompt. -/
theorem C6_style_context_and_verbatim_script
    (sim : String → String → Nat) (mode : InspirationSource)
    (creator_selection : Option (List String))
    (user_script improvement_focus : String)
    (my_style : Collection StyleMeta) (creators : Collection CreatorMeta)
    (hmode : mode.includesSelf = true) :
    styleQueryResults sim my_style user_script =
      my_style.query sim (pyTake 500 user_script) 2 (fun _ => true) ∧
    (styleQueryResults sim my_style user_script).length ≤ 2 ∧
    (∀ p ∈ (styleQueryResults sim my_style user_script).enum,
      styleBlock (p.1 + 1) p.2 ∈
        contextParts sim mode creator_selection user_script my_style
          creators) ∧
    (∀ i e, styleBlock i e =
      "Your Style Example " ++ toString i ++ " - \x27" ++
        e.metadata.title ++ "\x27:\n" ++ pyTake 400 e.document ++ "...") ∧
    (∃ pre post,
      enhancementPrompt user_script improvement_focus
        (buildContext sim mode creator_selection user_script my_style
          creators) = pre ++ user_script ++ post) := by
  refine ⟨rfl, ?_, ?_, fun i e => rfl, ?_⟩
  · simp only [styleQueryResults, Collection.query]
    exact List.length_take_le 2 _
  · intro p hp
    have hres : styleQueryResults sim my_style user_script ≠ [] := by
      intro hnil
      rw [hnil, List.enum_nil] at hp
      exact List.not_mem_nil p hp
    simp only [contextParts, hmode, if_true, hres, ite_true, ne_eq,
      not_false_iff]
    exact List.mem_append_left _
      (List.mem_cons_of_mem _ (List.mem_map_of_mem _ hp))
  · refine ⟨promptPart1, promptPart2 ++ improvement_focus ++ promptPart3 ++
      buildContext sim mode creator_selection user_script my_style
        creators ++ promptPart4 ++ improvement_focus.toLower ++
      promptPart5, ?_⟩
    simp only [enhancementPrompt, String.append_assoc]

/-- Witness for C6: the end-to-end scenario, with the Intro Hook store, a
constant distance metric, a 50-character draft and mode self-only. -/
theorem C6_style_context_and_verbatim_script_witness :
    InspirationSource.myPersonalStyleOnly.includesSelf = true ∧
    (styleQueryResults (fun _ _ => 0) introHookStore
        "This is my fifty character draft script for today!" =
      introHookStore.query (fun _ _ => 0)
        (pyTake 500 "This is my fifty character draft script for today!") 2
        (fun _ => true) ∧
    (styleQueryResults (fun _ _ => 0) introHookStore
        "This is my fifty character draft script for today!").length ≤ 2 ∧
    (∀ p ∈ (styleQueryResults (fun _ _ => 0) introHookStore
        "This is my fifty character draft script for today!").enum,
      styleBlock (p.1 + 1) p.2 ∈
        contextParts (fun _ _ => 0) InspirationSource.myPersonalStyleOnly
          none "This is my fifty character draft script for today!"
          introHookStore Collection.emptyC) ∧
    (∀ i e, styleBlock i e =
      "Your Style Example " ++ toString i ++ " - \x27" ++
        e.metadata.title ++ "\x27:\n" ++ pyTake 400 e.document ++ "...") ∧
    (∃ pre post,
      enhancementPrompt "This is my fifty character draft script for today!"
        "Overall storytelling and flow"
        (buildContext (fun _ _ => 0) InspirationSource.myPersonalStyleOnly
          none "This is my fifty character draft script for today!"
          introHookStore Collection.emptyC) =
        pre ++ "This is my fifty character draft script for today!" ++
          post)) :=
  ⟨rfl, C6_style_context_and_verbatim_script (fun _ _ => 0)
    InspirationSource.myPersonalStyleOnly none
    "This is my fifty character draft script for today!"
    "Overall storytelling and flow" introHookStore Collection.emptyC rfl⟩

/-- C7: the creators query uses the same 500-character probe requesting 3
results; a supplied non-empty creator selection restricts every returned
example to have its creator name in the selection, while an absent or an
empty selection leaves the filter unset, and the unset filter excludes no
entry of the collection. -/
theorem C7_creator_filter_restriction
    (sim : String → String → Nat) (user_script : String)
    (creators : Collection CreatorMeta) (sel : List String) :
    creatorQueryResults sim creators user_script (some sel) =
      creators.query sim (pyTake 500 user_script) 3
        (matchesWhere (whereFilter (some sel))) ∧
    (sel ≠ [] →
      ∀ e ∈ creatorQueryResults sim creators user_script (some sel),
        e.metadata.creator_name ∈ sel) ∧
    whereFilter none = none ∧
    whereFilter (some []) = none ∧
    creators.entries.filter (fun e => matchesWhere none e.metadata) =
      creators.entries := by
  refine ⟨rfl, ?_, rfl, rfl, ?_⟩
  · intro hsel e he
    simp only [creatorQueryResults, Collection.query, whereFilter,
      if_pos hsel] at he
    have h1 := List.take_subset _ _ he
    rw [List.mem_mergeSort, List.mem_filter] at h1
    simpa [matchesWhere] using h1.2
  · simp [matchesWhere]

/-- Demo creators store holding one example from Ali and one from Sara. -/
def twoCreatorsStore : Collection CreatorMeta :=
  (saveCreatorContent
    (saveCreatorContent Collection.emptyC "Ali" "Hooks" "Great hook" "" "ts").1
    "Sara" "Stories" "Great story" "" "ts").1

/-- Witness for C7: with the two-creator store and the selection
restricted to Ali, the returned creator names all lie in the selection. -/
theorem C7_creator_filter_restriction_witness :
    (["Ali"] : List String) ≠ [] ∧
    (creatorQueryResults (fun _ _ => 0) twoCreatorsStore "draft"
        (some ["Ali"]) =
      twoCreatorsStore.query (fun _ _ => 0) (pyTake 500 "draft") 3
        (matchesWhere (whereFilter (some ["Ali"]))) ∧
    ((["Ali"] : List String) ≠ [] →
      ∀ e ∈ creatorQueryResults (fun _ _ => 0) twoCreatorsStore "draft"
          (some ["Ali"]),
        e.metadata.creator_name ∈ (["Ali"] : List String)) ∧
    whereFilter none = none ∧
    whereFilter (some []) = none ∧
    twoCreatorsStore.entries.filter
        (fun e => matchesWhere none e.metadata) =
      twoCreatorsStore.entries) :=
  ⟨by decide, C7_creator_filter_restriction (fun _ _ => 0) "draft"
    twoCreatorsStore ["Ali"]⟩

/-- C8: the Context Builder is total and degrades to the sentinel: a
query of an empty collection returns the empty result for every probe,
bound and filter, on empty stores the builder outputs exactly the
no-relevant-examples sentinel for every mode, and in general whenever no
context parts are produced the output is exactly the sentinel. -/
theorem C8_empty_store_sentinel
    (sim : String → String → Nat) (mode : InspirationSource)
    (creator_selection : Option (List String)) (user_script : String) :
    (∀ (probe : String) (k : Nat) (φ : StyleMeta → Bool),
      (Collection.emptyC : Collection StyleMeta).query sim probe k φ = []) ∧
    (∀ (probe : String) (k : Nat) (φ : CreatorMeta → Bool),
      (Collection.emptyC : Collection CreatorMeta).query sim probe k φ
        = []) ∧
    buildContext sim mode creator_selection user_script Collection.emptyC
      Collection.emptyC = "No relevant examples found." ∧
    (∀ my_style creators,
      contextParts sim mode creator_selection user_script my_style
        creators = [] →
      buildContext sim mode creator_selection user_script my_style
        creators = "No relevant examples found.") := by
  refine ⟨?_, ?_, ?_, ?_⟩
  · intro probe k φ
    simp [Collection.query, Collection.emptyC]
  · intro probe k φ
    simp [Collection.query, Collection.emptyC]
  · cases mode <;>
      simp [buildContext, contextParts, styleQueryResults,
        creatorQueryResults, Collection.query, Collection.emptyC,
        InspirationSource.includesSelf, InspirationSource.includesCreators]
  · intro my_style creators hparts
    simp [buildContext, hparts]

/-- Witness for C8 at a constant metric, mode both, no selection. -/
theorem C8_empty_store_sentinel_witness :
    (∀ (probe : String) (k : Nat) (φ : StyleMeta → Bool),
      (Collection.emptyC : Collection StyleMeta).query (fun _ _ => 0)
        probe k φ = []) ∧
    (∀ (probe : String) (k : Nat) (φ : CreatorMeta → Bool),
      (Collection.emptyC : Collection CreatorMeta).query (fun _ _ => 0)
        probe k φ = []) ∧
    buildContext (fun _ _ => 0) InspirationSource.bothStyleAndCreators none
      "my draft" Collection.emptyC Collection.emptyC =
      "No relevant examples found." ∧
    (∀ my_style creators,
      contextParts (fun _ _ => 0) InspirationSource.bothStyleAndCreators
        none "my draft" my_style creators = [] →
      buildContext (fun _ _ => 0) InspirationSource.bothStyleAndCreators
        none "my draft" my_style creators =
        "No relevant examples found.") :=
  C8_empty_store_sentinel (fun _ _ => 0)
    InspirationSource.bothStyleAndCreators none "my draft"

/-- C9: the Prompt Assembler is deterministic, it is a pure function of
the script, the focus and the context, and the original script is
embedded verbatim in the produced prompt. -/
theorem C9_prompt_deterministic
    (s f c s2 f2 c2 : String) (hs : s = s2) (hf : f = f2) (hc : c = c2) :
    enhancementPrompt s f c = enhancementPrompt s2 f2 c2 ∧
    (∃ pre post, enhancementPrompt s f c = pre ++ s ++ post) := by
  subst hs hf hc
  refine ⟨rfl, promptPart1, promptPart2 ++ f ++ promptPart3 ++ c ++
    promptPart4 ++ f.toLower ++ promptPart5, ?_⟩
  simp only [enhancementPrompt, String.append_assoc]

/-- Witness for C9 at concrete inputs. -/
theorem C9_prompt_deterministic_witness :
    enhancementPrompt "my draft" "Emotional engagement" "ctx" =
      enhancementPrompt "my draft" "Emotional engagement" "ctx" ∧
    (∃ pre post,
      enhancementPrompt "my draft" "Emotional engagement" "ctx" =
        pre ++ "my draft" ++ post) :=
  C9_prompt_deterministic "my draft" "Emotional engagement" "ctx"
    "my draft" "Emotional engagement" "ctx" rfl rfl rfl

/-- C10: in both block shapes the ellipsis marker is appended
unconditionally after the first 400 characters of the stored text, so a
block built from a text of at most 400 characters carries the whole text,
nothing cut, still followed by the ellipsis. -/
theorem C10_unconditional_ellipsis (i j : Nat) (e : Entry StyleMeta)
    (e2 : Entry CreatorMeta) :
    (∃ pre, styleBlock i e = pre ++ "...") ∧
    (∃ pre, creatorBlock j e2 = pre ++ "...") ∧
    (e.document.length ≤ 400 → styleBlock i e =
      "Your Style Example " ++ toString i ++ " - \x27" ++
        e.metadata.title ++ "\x27:\n" ++ e.document ++ "...") ∧
    (e2.document.length ≤ 400 → creatorBlock j e2 =
      "Creator Example " ++ toString j ++ " - " ++
        e2.metadata.creator_name ++ ": \x27" ++ e2.metadata.content_title ++
        "\x27:\n" ++ e2.document ++ "...") := by
  refine ⟨⟨_, rfl⟩, ⟨_, rfl⟩, ?_, ?_⟩
  · intro h
    simp only [styleBlock, pyTake_of_length_le 400 _ h]
  · intro h
    simp only [creatorBlock, pyTake_of_length_le 400 _ h]

/-- Witness for C10 at short concrete documents: the blocks end with the
ellipsis although nothing was cut. -/
theorem C10_unconditional_ellipsis_witness :
    (∃ pre, styleBlock 1 (Entry.mk "my_style_1" "Hey"
      ⟨"Intro Hook", "", "ts"⟩) = pre ++ "...") ∧
    (∃ pre, creatorBlock 1 (Entry.mk "creator_1" "Hi"
      ⟨"Ali", "Hooks", "", "ts"⟩) = pre ++ "...") ∧
    (("Hey" : String).length ≤ 400 →
      styleBlock 1 (Entry.mk "my_style_1" "Hey" ⟨"Intro Hook", "", "ts"⟩) =
      "Your Style Example " ++ toString 1 ++ " - \x27" ++ "Intro Hook" ++
        "\x27:\n" ++ "Hey" ++ "...") ∧
    (("Hi" : String).length ≤ 400 →
      creatorBlock 1 (Entry.mk "creator_1" "Hi" ⟨"Ali", "Hooks", "", "ts"⟩) =
      "Creator Example " ++ toString 1 ++ " - " ++ "Ali" ++ ": \x27" ++
        "Hooks" ++ "\x27:\n" ++ "Hi" ++ "...") :=
  C10_unconditional_ellipsis 1 1
    (Entry.mk "my_style_1" "Hey" ⟨"Intro Hook", "", "ts"⟩)
    (Entry.mk "creator_1" "Hi" ⟨"Ali", "Hooks", "", "ts"⟩)

end App
